import Mathlib

/-!
Verification of the MacosUseSDK Python wrapper
(src/python_wrapper/macos_use_sdk/{types,core}.py).

The development shallowly embeds the pure computation of the wrapper:
the response parser, the snapshot differ, option validation, the
error-classification logic, the stderr metadata scraping, and the
stage structure of the composite coordinated action.  External tool
invocations (child processes) appear only as oracle outcomes.

Python strings are modelled as Lean strings; Python string operations
that the code uses (strip, split, substring test, replace, lower) are
re-implemented over lists of characters so that all definitions are
executable and kernel-reducible.  Python exceptions are modelled by
the `PyExc` type and fallible code returns `Except PyExc`.
-/

set_option linter.unusedVariables false

namespace MacosUseSDK

/-- Python exceptions relevant to the embedded code.  `unmodeled` is not a
Python exception: Python dataclasses do not validate field annotations, so a
JSON document holding a value of the wrong type at a typed field would be
stored as-is; such ill-typed documents fall outside this typed embedding and
are mapped to `unmodeled`.  Every claim quantifies only over well-typed
documents, where `unmodeled` does not arise. -/
inductive PyExc where
  | attributeError
  | typeError
  | valueError
  | unmodeled
  deriving DecidableEq, Repr

/- ===== Python string primitives, re-implemented structurally ===== -/

/-- Whitespace characters removed by Python str.strip(). -/
def pyIsSpace (c : Char) : Bool :=
  c = ' ' || c = '\t' || c = '\n' || c = '\r' || c = '\x0b' || c = '\x0c'

/-- Python str.strip(): drop leading and trailing whitespace. -/
def pyStrip (s : String) : String :=
  String.mk (((s.toList.dropWhile pyIsSpace).reverse.dropWhile pyIsSpace).reverse)

/-- Membership of one character list inside another, as Python substring
containment (needle occurs contiguously in hay). -/
def listContains (needle : List Char) : List Char → Bool
  | [] => needle.isEmpty
  | c :: rest => needle.isPrefixOf (c :: rest) || listContains needle rest

/-- Python `needle in hay` on strings. -/
def pyContains (hay needle : String) : Bool :=
  listContains needle.toList hay.toList

/-- Python `needle in hay.lower()` for an already-lowercase needle
(per-character lowering, as str.lower does on ASCII text). -/
def pyContainsLower (hay needle : String) : Bool :=
  listContains needle.toList (hay.toList.map Char.toLower)

/-- Python s.split(sep) for a single-character separator (the code only
splits on a colon and on a newline).  Empty input yields one empty field. -/
def pySplitChar (sep : Char) : List Char → List (List Char)
  | [] => [[]]
  | c :: rest =>
      if c = sep then [] :: pySplitChar sep rest
      else
        match pySplitChar sep rest with
        | [] => [[c]]
        | g :: gs => (c :: g) :: gs

/-- String-level wrapper for `pySplitChar`. -/
def pySplitOnChar (s : String) (sep : Char) : List String :=
  (pySplitChar sep s.toList).map String.mk

/-- Core loop of Python str.replace: when `skip` is positive we are inside an
already-matched occurrence and only consume characters. -/
def listReplaceAux (pat repl : List Char) : Nat → List Char → List Char
  | _, [] => []
  | n+1, _ :: rest => listReplaceAux pat repl n rest
  | 0, c :: rest =>
      if pat.isPrefixOf (c :: rest) && !pat.isEmpty then
        repl ++ listReplaceAux pat repl (pat.length - 1) rest
      else c :: listReplaceAux pat repl 0 rest

/-- Python s.replace(pat, repl): replace every non-overlapping occurrence,
scanning left to right. -/
def pyReplace (s pat repl : String) : String :=
  String.mk (listReplaceAux pat.toList repl.toList 0 s.toList)

/-- Remainder of a character list after the first occurrence of a marker
(Python line.split(marker, 1)[1], defined when the marker occurs). -/
def pyAfterFirstAux (marker : List Char) : List Char → Option (List Char)
  | [] => if marker.isEmpty then some [] else none
  | c :: rest =>
      if marker.isPrefixOf (c :: rest) then some ((c :: rest).drop marker.length)
      else pyAfterFirstAux marker rest

/-- Python line.split(marker, 1)[1].  The callers only reach this after
checking that the marker occurs in the line, so the fallback branch that
returns the line unchanged is unreachable there. -/
def pyAfterFirst (line marker : String) : String :=
  match pyAfterFirstAux marker.toList line.toList with
  | some t => String.mk t
  | none => line

/-- Accumulate decimal digits; fails on a non-digit. -/
def digitsVal? (cs : List Char) : Option Nat :=
  cs.foldl
    (fun acc c =>
      match acc with
      | none => none
      | some n => if c.isDigit then some (n * 10 + (c.toNat - 48)) else none)
    (some 0)

/-- Python int(s) restricted to the forms the tools emit: optional
whitespace, an optional sign, and a non-empty run of decimal digits.
(Python additionally accepts underscore separators, which no tool emits.) -/
def pyIntOfString (s : String) : Option Int :=
  match (pyStrip s).toList with
  | [] => none
  | '+' :: rest =>
      if rest.isEmpty then none else (digitsVal? rest).map Int.ofNat
  | '-' :: rest =>
      if rest.isEmpty then none else (digitsVal? rest).map (fun n => -(n : Int))
  | cs => (digitsVal? cs).map Int.ofNat

/-- Mantissa of a decimal literal: digits with at most one point, at least
one digit overall.  Returns the digit value and the number of fractional
digits. -/
def pyMantissa? (cs : List Char) : Option (Nat × Nat) :=
  match pySplitChar '.' cs with
  | [ip] => if ip.isEmpty then none else (digitsVal? ip).map (fun v => (v, 0))
  | [ip, fp] =>
      if ip.isEmpty && fp.isEmpty then none
      else (digitsVal? (ip ++ fp)).map (fun v => (v, fp.length))
  | _ => none

/-- Signed decimal exponent. -/
def pyExp? (cs : List Char) : Option Int :=
  match cs with
  | '+' :: rest => if rest.isEmpty then none else (digitsVal? rest).map Int.ofNat
  | '-' :: rest => if rest.isEmpty then none else (digitsVal? rest).map (fun n => -(n : Int))
  | _ => if cs.isEmpty then none else (digitsVal? cs).map Int.ofNat

/-- Python float(s) restricted to finite decimal literals with an optional
exponent, read exactly (the wrapper only passes the value through, so the
exact-rational reading is adequate; inf/nan spellings are not modelled).
The only case normalization the modelled grammar needs is E versus e. -/
def pyFloatOfString (s : String) : Option ℚ :=
  let t := (pyStrip s).toList.map (fun c => if c = 'E' then 'e' else c)
  let signed : Bool × List Char :=
    match t with
    | '+' :: rest => (false, rest)
    | '-' :: rest => (true, rest)
    | _ => (false, t)
  let body := signed.2
  let parts := pySplitChar 'e' body
  let mantExp : Option ((Nat × Nat) × Int) :=
    match parts with
    | [m] => (pyMantissa? m).map (fun p => (p, 0))
    | [m, e] =>
        match pyMantissa? m, pyExp? e with
        | some p, some ex => some (p, ex)
        | _, _ => none
    | _ => none
  mantExp.map (fun pe =>
    let q : ℚ := (pe.1.1 : ℚ) / ((10 : ℚ) ^ pe.1.2) * ((10 : ℚ) ^ pe.2)
    if signed.1 then -q else q)

/- ===== JSON values (output of json.loads) ===== -/

/-- JSON values as produced by Python json.loads: objects become dicts
(modelled as association lists in insertion order), json ints and floats are
kept apart as Python keeps int and float apart, and float literals are read
as exact rationals (the wrapper never computes with them, only stores them). -/
inductive Json where
  | null
  | bool (b : Bool)
  | int (n : Int)
  | float (q : ℚ)
  | str (s : String)
  | arr (elems : List Json)
  | obj (fields : List (String × Json))

/-- Python dict lookup on a parsed JSON object.  json.loads keeps the last
binding for a duplicated key, so lookup takes the last matching entry. -/
def jLookup (d : List (String × Json)) (k : String) : Option Json :=
  (d.reverse.find? (fun p => p.1 = k)).map (fun p => p.2)

/-- Python truthiness of a JSON value (None, False, 0, 0.0, empty string,
empty list and empty dict are falsy). -/
def jTruthy (j : Json) : Bool :=
  match j with
  | .null => false
  | .bool b => b
  | .int n => n != 0
  | .float q => q != 0
  | .str s => s != ""
  | .arr l => !l.isEmpty
  | .obj f => !f.isEmpty

/- ===== Data structures (types.py) ===== -/

/-- Statistics about the accessibility tree traversal (types.py lines
92-104).  role_counts is a Python dict from role to count, modelled as an
association list in insertion order. -/
structure Statistics where
  count : Int := 0
  excluded_count : Int := 0
  excluded_non_interactable : Int := 0
  excluded_no_text : Int := 0
  with_text_count : Int := 0
  without_text_count : Int := 0
  visible_elements_count : Int := 0
  role_counts : List (String × Int) := []
  browser_elements_count : Int := 0
  deriving DecidableEq, Repr

/-- The all-default Statistics record (Statistics() in Python). -/
def zeroStatistics : Statistics := {}

/-- An accessibility element (types.py lines 54-62).  The dataclass declares
exactly the six fields role, text, x, y, width and height.  Python instances
may additionally carry dynamically assigned attributes; the only such
attribute the code ever reads is ax_element (in _generate_traversal_diff),
so it is modelled explicitly: `ax_element = none` is an instance on which
the attribute was never assigned, for which Python attribute access raises
AttributeError.  No code in the repository ever assigns it. -/
structure ElementData where
  role : String
  text : Option String := none
  x : Option ℚ := none
  y : Option ℚ := none
  width : Option ℚ := none
  height : Option ℚ := none
  ax_element : Option String := none
  deriving DecidableEq, Repr

/-- Python attribute access elem.ax_element: raises AttributeError when the
attribute was never assigned. -/
def ElementData.getAxElement (e : ElementData) : Except PyExc String :=
  match e.ax_element with
  | some k => .ok k
  | none => .error .attributeError

/-- A browser-specific element (types.py lines 65-81). -/
structure BrowserElementData where
  tag_name : String
  id : Option String := none
  class_name : Option String := none
  text : Option String := none
  value : Option String := none
  placeholder : Option String := none
  aria_label : Option String := none
  role : Option String := none
  href : Option String := none
  src : Option String := none
  x : Option ℚ := none
  y : Option ℚ := none
  width : Option ℚ := none
  height : Option ℚ := none
  deriving DecidableEq, Repr

/-- Browser page information (types.py lines 84-89). -/
structure BrowserPageData where
  url : Option String := none
  title : Option String := none
  elements : List BrowserElementData := []
  deriving DecidableEq, Repr

/-- Response from an accessibility tree traversal (types.py lines 106-114). -/
structure ResponseData where
  app_name : String
  elements : List ElementData
  stats : Statistics
  processing_time_seconds : String
  is_browser : Bool := false
  browser_data : Option BrowserPageData := none
  deriving DecidableEq, Repr

/-- Result from opening an application (types.py lines 117-122). -/
structure AppOpenerResult where
  pid : Int
  app_name : String
  processing_time_seconds : String
  deriving DecidableEq, Repr

/-- Result from system output control (types.py lines 160-164). -/
structure OutputControllerResult where
  value : Option ℚ
  message : String
  deriving DecidableEq, Repr

/-- Detail of an attribute change (types.py lines 167-174). -/
structure AttributeChangeDetail where
  attribute_name : String
  added_text : Option String := none
  removed_text : Option String := none
  old_value : Option String := none
  new_value : Option String := none
  deriving DecidableEq, Repr

/-- A change to an accessibility element (types.py lines 177-182). -/
structure ElementChange where
  ax_element : String
  change_type : String
  changes : List AttributeChangeDetail := []
  deriving DecidableEq, Repr

/-- Difference between two traversals (types.py lines 185-192). -/
structure TraversalDiff where
  added_elements : List ElementData := []
  removed_elements : List ElementData := []
  modified_elements : List ElementChange := []
  stats_before : Option Statistics := none
  stats_after : Option Statistics := none
  deriving DecidableEq, Repr

/-- Result from a coordinated action (types.py lines 195-205). -/
structure ActionResult where
  open_result : Option AppOpenerResult := none
  traversal_pid : Option Int := none
  traversal_before : Option ResponseData := none
  traversal_after : Option ResponseData := none
  traversal_diff : Option TraversalDiff := none
  primary_action_error : Option String := none
  traversal_before_error : Option String := none
  traversal_after_error : Option String := none
  deriving DecidableEq, Repr

/-- ActionResult() with all fields at their defaults. -/
def emptyActionResult : ActionResult := {}

/-- Configuration options for orchestrated actions (types.py lines 277-287).
Float-typed fields are modelled as rationals; the code only stores and
compares them. -/
structure ActionOptions where
  traverse_before : Bool := false
  traverse_after : Bool := false
  show_diff : Bool := false
  only_visible_elements : Bool := false
  show_animation : Bool := true
  animation_duration : ℚ := (0.8 : ℚ)
  pid_for_traversal : Option Int := none
  delay_after_action : ℚ := (0.2 : ℚ)
  deriving DecidableEq, Repr

/-- ActionOptions() with all fields at their defaults. -/
def defaultActionOptions : ActionOptions := {}

/-- ActionOptions.validated (types.py lines 289-307): construct a fresh
ActionOptions copying every field, then, on the copy, force both traversal
flags when show_diff is set, and return the copy. -/
def ActionOptions.validated (self : ActionOptions) : ActionOptions :=
  let options : ActionOptions :=
    { traverse_before := self.traverse_before
      traverse_after := self.traverse_after
      show_diff := self.show_diff
      only_visible_elements := self.only_visible_elements
      show_animation := self.show_animation
      animation_duration := self.animation_duration
      pid_for_traversal := self.pid_for_traversal
      delay_after_action := self.delay_after_action }
  if options.show_diff then
    { options with traverse_before := true, traverse_after := true }
  else options

/-- Heap-level reading of ActionOptions.validated, to express the mutation
behaviour of the Python method: objects live in a store addressed by
position, `self` is the address of the receiver.  The method allocates a
fresh object (the copy built at types.py lines 291-300), then the two
conditional assignments at lines 303-305 write to that fresh address only,
and the fresh address is returned. -/
def validatedHeap (heap : List ActionOptions) (self : Nat) :
    List ActionOptions × Nat :=
  let s := heap.getD self defaultActionOptions
  let fresh : ActionOptions :=
    { traverse_before := s.traverse_before
      traverse_after := s.traverse_after
      show_diff := s.show_diff
      only_visible_elements := s.only_visible_elements
      show_animation := s.show_animation
      animation_duration := s.animation_duration
      pid_for_traversal := s.pid_for_traversal
      delay_after_action := s.delay_after_action }
  let addr := heap.length
  let heap1 := heap ++ [fresh]
  let fresh2 :=
    if fresh.show_diff then
      { fresh with traverse_before := true, traverse_after := true }
    else fresh
  (heap1.set addr fresh2, addr)

/- ===== Response parser (core.py _parse_response_data, lines 355-419) ===== -/

/-- stats_data.get(key, 0) read into the int-typed Statistics field. -/
def pyGetInt (o : Option Json) : Except PyExc Int :=
  match o with
  | none => .ok 0
  | some (.int n) => .ok n
  | some _ => .error .unmodeled

/-- elem_data.get(key) read into an Optional[str] field: an absent key and a
JSON null both give None. -/
def pyGetOptStr (o : Option Json) : Except PyExc (Option String) :=
  match o with
  | none => .ok none
  | some .null => .ok none
  | some (.str s) => .ok (some s)
  | some _ => .error .unmodeled

/-- elem_data.get(key) read into an Optional[float] field. -/
def pyGetOptNum (o : Option Json) : Except PyExc (Option ℚ) :=
  match o with
  | none => .ok none
  | some .null => .ok none
  | some (.int n) => .ok (some (n : ℚ))
  | some (.float q) => .ok (some q)
  | some _ => .error .unmodeled

/-- json_data.get(key, default) read into a str-typed field. -/
def pyGetStrD (o : Option Json) (dflt : String) : Except PyExc String :=
  match o with
  | none => .ok dflt
  | some (.str s) => .ok s
  | some _ => .error .unmodeled

/-- json_data.get(key, default) read into a bool-typed field. -/
def pyGetBoolD (o : Option Json) (dflt : Bool) : Except PyExc Bool :=
  match o with
  | none => .ok dflt
  | some (.bool b) => .ok b
  | some _ => .error .unmodeled

/-- Entries of the role_counts dict read one by one. -/
def parseRoleCountsList : List (String × Json) → Except PyExc (List (String × Int))
  | [] => .ok []
  | p :: rest =>
      match p.2 with
      | .int n =>
          match parseRoleCountsList rest with
          | .error e => .error e
          | .ok tail => .ok ((p.1, n) :: tail)
      | _ => .error .unmodeled

/-- stats_data.get("role_counts", {}) read into the Dict[str, int] field. -/
def parseRoleCounts (j : Json) : Except PyExc (List (String × Int)) :=
  match j with
  | .obj fields => parseRoleCountsList fields
  | _ => .error .unmodeled

/-- Parsing of the "stats" object (core.py lines 358-369).  Calling .get on
a non-dict value raises AttributeError. -/
def parse_stats (stats_data : Json) : Except PyExc Statistics :=
  match stats_data with
  | .obj s =>
      match pyGetInt (jLookup s "count") with
      | .error e => .error e
      | .ok count =>
      match pyGetInt (jLookup s "excluded_count") with
      | .error e => .error e
      | .ok excluded_count =>
      match pyGetInt (jLookup s "excluded_non_interactable") with
      | .error e => .error e
      | .ok excluded_non_interactable =>
      match pyGetInt (jLookup s "excluded_no_text") with
      | .error e => .error e
      | .ok excluded_no_text =>
      match pyGetInt (jLookup s "with_text_count") with
      | .error e => .error e
      | .ok with_text_count =>
      match pyGetInt (jLookup s "without_text_count") with
      | .error e => .error e
      | .ok without_text_count =>
      match pyGetInt (jLookup s "visible_elements_count") with
      | .error e => .error e
      | .ok visible_elements_count =>
      match parseRoleCounts ((jLookup s "role_counts").getD (.obj [])) with
      | .error e => .error e
      | .ok role_counts =>
      match pyGetInt (jLookup s "browser_elements_count") with
      | .error e => .error e
      | .ok browser_elements_count =>
        .ok { count := count
              excluded_count := excluded_count
              excluded_non_interactable := excluded_non_interactable
              excluded_no_text := excluded_no_text
              with_text_count := with_text_count
              without_text_count := without_text_count
              visible_elements_count := visible_elements_count
              role_counts := role_counts
              browser_elements_count := browser_elements_count }
  | _ => .error .attributeError

/-- Parsing of one entry of the "elements" array (core.py lines 373-381).
The ElementData constructor receives exactly the six declared fields; no
ax_element attribute is ever assigned. -/
def parse_element (j : Json) : Except PyExc ElementData :=
  match j with
  | .obj e =>
      match pyGetStrD (jLookup e "role") "" with
      | .error er => .error er
      | .ok role =>
      match pyGetOptStr (jLookup e "text") with
      | .error er => .error er
      | .ok text =>
      match pyGetOptNum (jLookup e "x") with
      | .error er => .error er
      | .ok x =>
      match pyGetOptNum (jLookup e "y") with
      | .error er => .error er
      | .ok y =>
      match pyGetOptNum (jLookup e "width") with
      | .error er => .error er
      | .ok width =>
      match pyGetOptNum (jLookup e "height") with
      | .error er => .error er
      | .ok height =>
        .ok { role := role, text := text, x := x, y := y
              width := width, height := height, ax_element := none }
  | _ => .error .attributeError

/-- The loop over json_data.get("elements", []). -/
def parse_elements : List Json → Except PyExc (List ElementData)
  | [] => .ok []
  | j :: rest =>
      match parse_element j with
      | .error e => .error e
      | .ok el =>
          match parse_elements rest with
          | .error e => .error e
          | .ok els => .ok (el :: els)

/-- The "elements" field of the document: absent defaults to the empty
list; iterating a non-array raises. -/
def parse_elements_field (o : Option Json) : Except PyExc (List ElementData) :=
  match o with
  | none => .ok []
  | some (.arr l) => parse_elements l
  | some _ => .error .typeError

/-- Parsing of one browser element (core.py lines 388-404). -/
def parse_browser_element (j : Json) : Except PyExc BrowserElementData :=
  match j with
  | .obj e =>
      match pyGetStrD (jLookup e "tagName") "" with
      | .error er => .error er
      | .ok tag_name =>
      match pyGetOptStr (jLookup e "id") with
      | .error er => .error er
      | .ok id =>
      match pyGetOptStr (jLookup e "className") with
      | .error er => .error er
      | .ok class_name =>
      match pyGetOptStr (jLookup e "text") with
      | .error er => .error er
      | .ok text =>
      match pyGetOptStr (jLookup e "value") with
      | .error er => .error er
      | .ok value =>
      match pyGetOptStr (jLookup e "placeholder") with
      | .error er => .error er
      | .ok placeholder =>
      match pyGetOptStr (jLookup e "ariaLabel") with
      | .error er => .error er
      | .ok aria_label =>
      match pyGetOptStr (jLookup e "role") with
      | .error er => .error er
      | .ok role =>
      match pyGetOptStr (jLookup e "href") with
      | .error er => .error er
      | .ok href =>
      match pyGetOptStr (jLookup e "src") with
      | .error er => .error er
      | .ok src =>
      match pyGetOptNum (jLookup e "x") with
      | .error er => .error er
      | .ok x =>
      match pyGetOptNum (jLookup e "y") with
      | .error er => .error er
      | .ok y =>
      match pyGetOptNum (jLookup e "width") with
      | .error er => .error er
      | .ok width =>
      match pyGetOptNum (jLookup e "height") with
      | .error er => .error er
      | .ok height =>
        .ok { tag_name := tag_name, id := id, class_name := class_name
              text := text, value := value, placeholder := placeholder
              aria_label := aria_label, role := role, href := href
              src := src, x := x, y := y, width := width, height := height }
  | _ => .error .attributeError

/-- The loop over browser_json.get("elements", []). -/
def parse_browser_elements : List Json → Except PyExc (List BrowserElementData)
  | [] => .ok []
  | j :: rest =>
      match parse_browser_element j with
      | .error e => .error e
      | .ok el =>
          match parse_browser_elements rest with
          | .error e => .error e
          | .ok els => .ok (el :: els)

/-- Parsing of a truthy "browser_data" value (core.py lines 385-410). -/
def parse_browser_data (j : Json) : Except PyExc BrowserPageData :=
  match j with
  | .obj b =>
      match (match jLookup b "elements" with
             | none => Except.ok []
             | some (.arr l) => parse_browser_elements l
             | some _ => Except.error PyExc.typeError :
               Except PyExc (List BrowserElementData)) with
      | .error e => .error e
      | .ok elems =>
      match pyGetOptStr (jLookup b "url") with
      | .error e => .error e
      | .ok url =>
      match pyGetOptStr (jLookup b "title") with
      | .error e => .error e
      | .ok title =>
        .ok { url := url, title := title, elements := elems }
  | _ => .error .attributeError

/-- The "browser_data" field: core.py line 385 tests Python truthiness of
json_data.get("browser_data"), so an absent key and any falsy value are
both skipped without inspection. -/
def parse_browser_field (o : Option Json) : Except PyExc (Option BrowserPageData) :=
  match o with
  | none => .ok none
  | some bj =>
      if jTruthy bj then
        match parse_browser_data bj with
        | .error e => .error e
        | .ok b => .ok (some b)
      else .ok none

/-- _parse_response_data (core.py lines 355-419): stats first (line 358,
with {} as the default for a missing "stats" key), then the elements loop,
then browser data, then the ResponseData constructor with its defaulted
scalar reads. -/
def _parse_response_data (json_data : List (String × Json)) :
    Except PyExc ResponseData :=
  match parse_stats ((jLookup json_data "stats").getD (.obj [])) with
  | .error e => .error e
  | .ok stats =>
  match parse_elements_field (jLookup json_data "elements") with
  | .error e => .error e
  | .ok elements =>
  match parse_browser_field (jLookup json_data "browser_data") with
  | .error e => .error e
  | .ok browser_data =>
  match pyGetStrD (jLookup json_data "app_name") "" with
  | .error e => .error e
  | .ok app_name =>
  match pyGetStrD (jLookup json_data "processing_time_seconds") "0.000" with
  | .error e => .error e
  | .ok processing_time_seconds =>
  match pyGetBoolD (jLookup json_data "is_browser") false with
  | .error e => .error e
  | .ok is_browser =>
    .ok { app_name := app_name
          elements := elements
          stats := stats
          processing_time_seconds := processing_time_seconds
          is_browser := is_browser
          browser_data := browser_data }

/- ===== Snapshot differ (core.py _generate_traversal_diff, lines 752-772) ===== -/

/-- A Python dict from identity key to element, as an association list in
insertion order. -/
abbrev ElementDict := List (String × ElementData)

/-- Python dict assignment d[k] = v: an existing key keeps its position and
gets the new value, a new key is appended. -/
def dictInsert (m : ElementDict) (k : String) (v : ElementData) : ElementDict :=
  if m.any (fun p => p.1 = k) then
    m.map (fun p => if p.1 = k then (k, v) else p)
  else m ++ [(k, v)]

/-- Python `k in d` on the element dict. -/
def dictContains (m : ElementDict) (k : String) : Bool :=
  m.any (fun p => p.1 = k)

/-- The dict comprehension at core.py lines 757-758:
elem.ax_element raises AttributeError on an element that never had the
attribute assigned. -/
def buildElementDict (acc : ElementDict) : List ElementData → Except PyExc ElementDict
  | [] => .ok acc
  | e :: rest =>
      match e.getAxElement with
      | .error er => .error er
      | .ok k => buildElementDict (dictInsert acc k e) rest

/-- _generate_traversal_diff (core.py lines 752-772): key both snapshots by
elem.ax_element, then added = values of the after-dict whose key is not in
the before-dict, removed = values of the before-dict whose key is not in
the after-dict, modified always empty, and the two statistics are carried
through unchanged. -/
def _generate_traversal_diff (before after : ResponseData) :
    Except PyExc TraversalDiff :=
  match buildElementDict [] before.elements with
  | .error e => .error e
  | .ok before_elements =>
  match buildElementDict [] after.elements with
  | .error e => .error e
  | .ok after_elements =>
    let added := (after_elements.filter
      (fun p => !dictContains before_elements p.1)).map (fun p => p.2)
    let removed := (before_elements.filter
      (fun p => !dictContains after_elements p.1)).map (fun p => p.2)
    .ok { added_elements := added
          removed_elements := removed
          modified_elements := []
          stats_before := some before.stats
          stats_after := some after.stats }

/- ===== Tool failure and traversal error classification
       (core.py _run_tool lines 95-116,
        traverse_accessibility_tree lines 343-353) ===== -/

/-- The failure message raised by _run_tool for a non-zero exit (core.py
lines 110-112): the stripped stderr if stderr is non-empty (Python
truthiness of the raw stderr), otherwise the fixed fallback. -/
def runToolFailureMsg (tool_name stderr : String) : String :=
  tool_name ++ " failed: " ++ (if stderr ≠ "" then pyStrip stderr else "Unknown error")

/-- Outcome of the return-code check in _run_tool: `none` when the tool
exited zero, otherwise the MacosUseSDKError message. -/
def runToolFailure (tool_name : String) (returncode : Int) (stderr : String) :
    Option String :=
  if returncode ≠ 0 then some (runToolFailureMsg tool_name stderr) else none

/-- The error kinds a traversal failure is upgraded to (core.py lines
348-353): AccessibilityError re-raised with the original message,
AppNotFoundError with a fresh message naming the identifier, or the
re-raised base MacosUseSDKError. -/
inductive TraversalFailure where
  | accessibility (msg : String)
  | appNotFound (msg : String)
  | base (msg : String)
  deriving DecidableEq, Repr

/-- Whether a failure surfaced as the accessibility-permission kind. -/
def TraversalFailure.isAccessibility : TraversalFailure → Bool
  | .accessibility _ => true
  | _ => false

/-- Whether a failure surfaced as the target-not-found kind. -/
def TraversalFailure.isAppNotFound : TraversalFailure → Bool
  | .appNotFound _ => true
  | _ => false

/-- The except clause of traverse_accessibility_tree (core.py lines
348-353): substring-match the lowercased message, "accessibility" first,
then "not found", else re-raise the base error. -/
def classifyTraversalFailure (pid_or_identifier msg : String) : TraversalFailure :=
  if pyContainsLower msg "accessibility" then .accessibility msg
  else if pyContainsLower msg "not found" then
    .appNotFound ("No application found for identifier " ++ pid_or_identifier)
  else .base msg

/-- End-to-end surfaced failure for a TraversalTool invocation that the
return-code check rejects. -/
def traverseToolFailure (pid_or_identifier : String) (returncode : Int)
    (stderr : String) : Option TraversalFailure :=
  (runToolFailure "TraversalTool" returncode stderr).map
    (classifyTraversalFailure pid_or_identifier)

/- ===== Metadata scraping from stderr
       (core.py open_application lines 145-162,
        _run_output_controller_action lines 597-627) ===== -/

/-- The loop at core.py lines 154-156: every stderr line containing the
timing marker overwrites processing_time (no break, so the last match
wins); with no match the default "0.000" stands. -/
def scanProcessingTime (lines : List String) : String :=
  lines.foldl
    (fun processing_time line =>
      if pyContains line "total execution time:" then
        pyReplace (pyStrip ((pySplitOnChar line ':').getLastD "")) " seconds" ""
      else processing_time)
    "0.000"

/-- The successful-tool-call portion of open_application (core.py lines
145-162): int(stdout.strip()) for the pid (a ValueError propagates), then
the stderr scan for the timing string; app_name keeps the identifier. -/
def openApplicationParse (identifier stdout stderr : String) :
    Except PyExc AppOpenerResult :=
  match pyIntOfString (pyStrip stdout) with
  | none => .error .valueError
  | some pid =>
      let stderr_lines := pySplitOnChar (pyStrip stderr) '\n'
      let app_name := identifier
      let processing_time := scanProcessingTime stderr_lines
      .ok { pid := pid, app_name := app_name
            processing_time_seconds := processing_time }

/-- The loop at core.py lines 620-625: first stderr line containing
"Success:" supplies the message (there is a break), default empty. -/
def scanSuccessMessage (lines : List String) : String :=
  match lines.find? (fun line => pyContains line "Success:") with
  | some line => pyStrip (pyAfterFirst line "Success:")
  | none => ""

/-- The successful-tool-call portion of _run_output_controller_action
(core.py lines 608-627): float(stdout.strip()) best-effort (a ValueError is
swallowed, an empty stdout skips the parse), and the stderr scan for the
success message. -/
def outputControllerParse (stdout stderr : String) : OutputControllerResult :=
  let value_output := pyStrip stdout
  let parsed_value : Option ℚ :=
    if value_output ≠ "" then pyFloatOfString value_output else none
  let stderr_lines := pySplitOnChar (pyStrip stderr) '\n'
  let message := scanSuccessMessage stderr_lines
  { value := parsed_value, message := message }

/- ===== Coordinated action (core.py perform_action, lines 633-710) ===== -/

/-- The closed set of input actions (types.py lines 218-250). -/
inductive InputActionT where
  | click (x y : ℚ)
  | doubleClick (x y : ℚ)
  | rightClick (x y : ℚ)
  | typeText (text : String)
  | press (key_name : String) (flags : Int)
  | move (x y : ℚ)
  | scroll (x y : ℚ) (delta_y delta_x : Int)
  deriving DecidableEq, Repr

/-- The primary action union (types.py lines 253-274); `openApp` stands for
PrimaryAction.Open. -/
inductive PrimaryActionT where
  | openApp (identifier : String)
  | inputAction (action : InputActionT)
  | traverseOnly
  deriving DecidableEq, Repr

/-- Outcomes of the awaited sub-operations of perform_action, one per
stage, abstracting the subprocess layer: each field is the result the
corresponding call would produce, the error side carrying str(e) of the
raised exception. -/
structure Effects where
  open_app : Except String AppOpenerResult
  trav_before : Except String ResponseData
  input_act : Except String Unit
  trav_after : Except String ResponseData

/-- Python truthiness of result.traversal_pid (an Optional[int]): None and
zero are falsy. -/
def pidTruthy : Option Int → Bool
  | none => false
  | some n => n != 0

/-- Stages of perform_action after the open stage (core.py lines 672-710):
before-traversal, primary input, after-traversal, then the optional diff.
The fixed delay (asyncio.sleep at lines 690-691) has no effect on the
recorded state and is not modelled.  A diff-stage exception (the
AttributeError of _generate_traversal_diff) propagates out, as it is not
wrapped in any try block. -/
def performActionRest (action : PrimaryActionT) (options : ActionOptions)
    (fx : Effects) (r1 : ActionResult) : Except PyExc ActionResult :=
  let r2 :=
    if options.traverse_before && pidTruthy r1.traversal_pid then
      match fx.trav_before with
      | .ok rd => { r1 with traversal_before := some rd }
      | .error e => { r1 with traversal_before_error := some e }
    else r1
  let r3 :=
    match action with
    | .inputAction _ =>
        match fx.input_act with
        | .ok _ => r2
        | .error e => { r2 with primary_action_error := some e }
    | _ => r2
  let r4 :=
    if options.traverse_after && pidTruthy r3.traversal_pid then
      match fx.trav_after with
      | .ok rd => { r3 with traversal_after := some rd }
      | .error e => { r3 with traversal_after_error := some e }
    else r3
  match options.show_diff, r4.traversal_before, r4.traversal_after with
  | true, some b, some a =>
      match _generate_traversal_diff b a with
      | .ok d => .ok { r4 with traversal_diff := some d }
      | .error e => .error e
  | _, _, _ => .ok r4

/-- perform_action (core.py lines 633-710): default then validate the
options (lines 651-654), run the open stage for an Open action with its
immediate early return on failure (lines 663-670), then the remaining
stages. -/
def perform_action (action : PrimaryActionT) (options0 : Option ActionOptions)
    (fx : Effects) : Except PyExc ActionResult :=
  let options := (options0.getD defaultActionOptions).validated
  let r0 := emptyActionResult
  match action with
  | .openApp _ =>
      match fx.open_app with
      | .error e => .ok { r0 with primary_action_error := some e }
      | .ok open_result =>
          performActionRest action options fx
            { r0 with open_result := some open_result
                      traversal_pid := some open_result.pid }
  | _ => performActionRest action options fx r0

/- ===== Well-formed traversal documents =====

The external traversal tool emits machine-generated JSON whose present
keys have the shapes the parser consumes.  The predicates below delimit
those documents; they make no key mandatory, since the parser defaults
every missing key. -/

/-- A stats field value: absent or a JSON int. -/
def intJsonWF (o : Option Json) : Bool :=
  match o with
  | none => true
  | some (.int _) => true
  | _ => false

/-- An Optional[str] field value: absent, null, or a JSON string. -/
def optStrWF (o : Option Json) : Bool :=
  match o with
  | none => true
  | some .null => true
  | some (.str _) => true
  | _ => false

/-- An Optional[float] field value: absent, null, or a JSON number. -/
def optNumWF (o : Option Json) : Bool :=
  match o with
  | none => true
  | some .null => true
  | some (.int _) => true
  | some (.float _) => true
  | _ => false

/-- A defaulted str field value: absent or a JSON string. -/
def strDWF (o : Option Json) : Bool :=
  match o with
  | none => true
  | some (.str _) => true
  | _ => false

/-- A defaulted bool field value: absent or a JSON bool. -/
def boolDWF (o : Option Json) : Bool :=
  match o with
  | none => true
  | some (.bool _) => true
  | _ => false

/-- The role_counts value: absent or an object with int values. -/
def roleCountsWF (o : Option Json) : Bool :=
  match o with
  | none => true
  | some (.obj fs) =>
      fs.all (fun p => match p.2 with | Json.int _ => true | _ => false)
  | _ => false

/-- The "stats" value: absent or an object with int-shaped counters. -/
def statsWF (o : Option Json) : Bool :=
  match o with
  | none => true
  | some (.obj s) =>
      intJsonWF (jLookup s "count") &&
      intJsonWF (jLookup s "excluded_count") &&
      intJsonWF (jLookup s "excluded_non_interactable") &&
      intJsonWF (jLookup s "excluded_no_text") &&
      intJsonWF (jLookup s "with_text_count") &&
      intJsonWF (jLookup s "without_text_count") &&
      intJsonWF (jLookup s "visible_elements_count") &&
      roleCountsWF (jLookup s "role_counts") &&
      intJsonWF (jLookup s "browser_elements_count")
  | _ => false

/-- One entry of the "elements" array. -/
def elementWF (j : Json) : Bool :=
  match j with
  | .obj e =>
      strDWF (jLookup e "role") && optStrWF (jLookup e "text") &&
      optNumWF (jLookup e "x") && optNumWF (jLookup e "y") &&
      optNumWF (jLookup e "width") && optNumWF (jLookup e "height")
  | _ => false

/-- The "elements" value: absent or an array of well-shaped entries. -/
def elementsWF (o : Option Json) : Bool :=
  match o with
  | none => true
  | some (.arr l) => l.all elementWF
  | _ => false

/-- One entry of the browser "elements" array. -/
def browserElementWF (j : Json) : Bool :=
  match j with
  | .obj e =>
      strDWF (jLookup e "tagName") && optStrWF (jLookup e "id") &&
      optStrWF (jLookup e "className") && optStrWF (jLookup e "text") &&
      optStrWF (jLookup e "value") && optStrWF (jLookup e "placeholder") &&
      optStrWF (jLookup e "ariaLabel") && optStrWF (jLookup e "role") &&
      optStrWF (jLookup e "href") && optStrWF (jLookup e "src") &&
      optNumWF (jLookup e "x") && optNumWF (jLookup e "y") &&
      optNumWF (jLookup e "width") && optNumWF (jLookup e "height")
  | _ => false

/-- The "browser_data" value: absent, falsy (skipped unread), or a
well-shaped object. -/
def browserWF (o : Option Json) : Bool :=
  match o with
  | none => true
  | some bj =>
      if jTruthy bj then
        match bj with
        | .obj b =>
            (match jLookup b "elements" with
             | none => true
             | some (.arr l) => l.all browserElementWF
             | _ => false) &&
            optStrWF (jLookup b "url") && optStrWF (jLookup b "title")
        | _ => false
      else true

/-- A well-formed traversal document. -/
def traversalDocWF (d : List (String × Json)) : Bool :=
  statsWF (jLookup d "stats") && elementsWF (jLookup d "elements") &&
  browserWF (jLookup d "browser_data") && strDWF (jLookup d "app_name") &&
  strDWF (jLookup d "processing_time_seconds") &&
  boolDWF (jLookup d "is_browser")

/- ===== Parser success lemmas ===== -/

/-- A well-shaped stats counter reads successfully. -/
theorem pyGetInt_ok {o : Option Json} (h : intJsonWF o = true) :
    ∃ n, pyGetInt o = .ok n := by
  cases o with
  | none => exact ⟨0, rfl⟩
  | some j => cases j <;> first | exact ⟨_, rfl⟩ | simp [intJsonWF] at h

/-- A well-shaped optional string reads successfully. -/
theorem pyGetOptStr_ok {o : Option Json} (h : optStrWF o = true) :
    ∃ s, pyGetOptStr o = .ok s := by
  cases o with
  | none => exact ⟨none, rfl⟩
  | some j => cases j <;> first | exact ⟨_, rfl⟩ | simp [optStrWF] at h

/-- A well-shaped optional number reads successfully. -/
theorem pyGetOptNum_ok {o : Option Json} (h : optNumWF o = true) :
    ∃ q, pyGetOptNum o = .ok q := by
  cases o with
  | none => exact ⟨none, rfl⟩
  | some j => cases j <;> first | exact ⟨_, rfl⟩ | simp [optNumWF] at h

/-- A well-shaped defaulted string reads successfully. -/
theorem pyGetStrD_ok {o : Option Json} (h : strDWF o = true) (dflt : String) :
    ∃ s, pyGetStrD o dflt = .ok s := by
  cases o with
  | none => exact ⟨dflt, rfl⟩
  | some j => cases j <;> first | exact ⟨_, rfl⟩ | simp [strDWF] at h

/-- A well-shaped defaulted bool reads successfully. -/
theorem pyGetBoolD_ok {o : Option Json} (h : boolDWF o = true) (dflt : Bool) :
    ∃ b, pyGetBoolD o dflt = .ok b := by
  cases o with
  | none => exact ⟨dflt, rfl⟩
  | some j => cases j <;> first | exact ⟨_, rfl⟩ | simp [boolDWF] at h

/-- Well-shaped role_counts entries read successfully. -/
theorem parseRoleCountsList_ok :
    ∀ fs : List (String × Json),
      fs.all (fun p => match p.2 with | Json.int _ => true | _ => false) = true →
      ∃ rc, parseRoleCountsList fs = .ok rc := by
  intro fs
  induction fs with
  | nil => exact fun _ => ⟨[], rfl⟩
  | cons p rest ih =>
      intro h
      rw [List.all_cons, Bool.and_eq_true] at h
      obtain ⟨tail, htail⟩ := ih h.2
      have h1 := h.1
      cases hp : p.2 <;> rw [hp] at h1 <;>
        first
        | (simp only [parseRoleCountsList, hp, htail]
           exact ⟨_, rfl⟩)
        | simp at h1

/-- A well-shaped role_counts value reads successfully. -/
theorem parseRoleCounts_ok {o : Option Json} (h : roleCountsWF o = true) :
    ∃ rc, parseRoleCounts (o.getD (.obj [])) = .ok rc := by
  cases o with
  | none => exact ⟨[], rfl⟩
  | some j =>
      cases j <;> simp only [roleCountsWF] at h <;>
        first
        | exact parseRoleCountsList_ok _ h
        | simp at h

/-- A missing stats object parses to the all-zero Statistics record. -/
theorem parse_stats_empty : parse_stats (.obj []) = .ok zeroStatistics := rfl

/-- A well-shaped stats value parses successfully. -/
theorem parse_stats_ok {o : Option Json} (h : statsWF o = true) :
    ∃ st, parse_stats (o.getD (.obj [])) = .ok st := by
  cases o with
  | none => exact ⟨zeroStatistics, rfl⟩
  | some j =>
      rcases j with _ | b | n | q | s2 | l | s <;> try exact Bool.noConfusion h
      rw [statsWF] at h
      simp only [Bool.and_eq_true] at h
      obtain ⟨⟨⟨⟨⟨⟨⟨⟨h1, h2⟩, h3⟩, h4⟩, h5⟩, h6⟩, h7⟩, h8⟩, h9⟩ := h
      obtain ⟨n1, e1⟩ := pyGetInt_ok h1
      obtain ⟨n2, e2⟩ := pyGetInt_ok h2
      obtain ⟨n3, e3⟩ := pyGetInt_ok h3
      obtain ⟨n4, e4⟩ := pyGetInt_ok h4
      obtain ⟨n5, e5⟩ := pyGetInt_ok h5
      obtain ⟨n6, e6⟩ := pyGetInt_ok h6
      obtain ⟨n7, e7⟩ := pyGetInt_ok h7
      obtain ⟨rc, e8⟩ := parseRoleCounts_ok h8
      obtain ⟨n9, e9⟩ := pyGetInt_ok h9
      simp only [Option.getD_some, parse_stats, e1, e2, e3, e4, e5, e6, e7,
        e8, e9]
      exact ⟨_, rfl⟩

/-- A well-shaped element entry parses successfully. -/
theorem parse_element_ok {j : Json} (h : elementWF j = true) :
    ∃ el, parse_element j = .ok el := by
  rcases j with _ | b | n | q | s | l | e <;> try exact Bool.noConfusion h
  rw [elementWF] at h
  simp only [Bool.and_eq_true] at h
  obtain ⟨⟨⟨⟨⟨h1, h2⟩, h3⟩, h4⟩, h5⟩, h6⟩ := h
  obtain ⟨role, e1⟩ := pyGetStrD_ok h1 ""
  obtain ⟨text, e2⟩ := pyGetOptStr_ok h2
  obtain ⟨x, e3⟩ := pyGetOptNum_ok h3
  obtain ⟨y, e4⟩ := pyGetOptNum_ok h4
  obtain ⟨w, e5⟩ := pyGetOptNum_ok h5
  obtain ⟨ht, e6⟩ := pyGetOptNum_ok h6
  simp only [parse_element, e1, e2, e3, e4, e5, e6]
  exact ⟨_, rfl⟩

/-- A list of well-shaped element entries parses successfully. -/
theorem parse_elements_ok :
    ∀ l : List Json, l.all elementWF = true →
      ∃ els, parse_elements l = .ok els := by
  intro l
  induction l with
  | nil => exact fun _ => ⟨[], rfl⟩
  | cons j rest ih =>
      intro h
      rw [List.all_cons, Bool.and_eq_true] at h
      obtain ⟨el, hel⟩ := parse_element_ok h.1
      obtain ⟨els, hels⟩ := ih h.2
      simp only [parse_elements, hel, hels]
      exact ⟨_, rfl⟩

/-- A well-shaped elements value parses successfully. -/
theorem parse_elements_field_ok {o : Option Json} (h : elementsWF o = true) :
    ∃ els, parse_elements_field o = .ok els := by
  cases o with
  | none => exact ⟨[], rfl⟩
  | some j =>
      rcases j with _ | b | n | q | s | l | e <;> simp only [elementsWF] at h <;>
        first
        | (obtain ⟨els, hels⟩ := parse_elements_ok _ h
           simp only [parse_elements_field, hels]
           exact ⟨_, rfl⟩)
        | simp at h

/-- A well-shaped browser element entry parses successfully. -/
theorem parse_browser_element_ok {j : Json} (h : browserElementWF j = true) :
    ∃ el, parse_browser_element j = .ok el := by
  rcases j with _ | b | n | q | s | l | e <;> try exact Bool.noConfusion h
  rw [browserElementWF] at h
  simp only [Bool.and_eq_true] at h
  obtain ⟨⟨⟨⟨⟨⟨⟨⟨⟨⟨⟨⟨⟨h1, h2⟩, h3⟩, h4⟩, h5⟩, h6⟩, h7⟩, h8⟩, h9⟩, h10⟩,
    h11⟩, h12⟩, h13⟩, h14⟩ := h
  obtain ⟨f1, e1⟩ := pyGetStrD_ok h1 ""
  obtain ⟨f2, e2⟩ := pyGetOptStr_ok h2
  obtain ⟨f3, e3⟩ := pyGetOptStr_ok h3
  obtain ⟨f4, e4⟩ := pyGetOptStr_ok h4
  obtain ⟨f5, e5⟩ := pyGetOptStr_ok h5
  obtain ⟨f6, e6⟩ := pyGetOptStr_ok h6
  obtain ⟨f7, e7⟩ := pyGetOptStr_ok h7
  obtain ⟨f8, e8⟩ := pyGetOptStr_ok h8
  obtain ⟨f9, e9⟩ := pyGetOptStr_ok h9
  obtain ⟨f10, e10⟩ := pyGetOptStr_ok h10
  obtain ⟨f11, e11⟩ := pyGetOptNum_ok h11
  obtain ⟨f12, e12⟩ := pyGetOptNum_ok h12
  obtain ⟨f13, e13⟩ := pyGetOptNum_ok h13
  obtain ⟨f14, e14⟩ := pyGetOptNum_ok h14
  simp only [parse_browser_element, e1, e2, e3, e4, e5, e6, e7, e8, e9, e10,
    e11, e12, e13, e14]
  exact ⟨_, rfl⟩

/-- A list of well-shaped browser element entries parses successfully. -/
theorem parse_browser_elements_ok :
    ∀ l : List Json, l.all browserElementWF = true →
      ∃ els, parse_browser_elements l = .ok els := by
  intro l
  induction l with
  | nil => exact fun _ => ⟨[], rfl⟩
  | cons j rest ih =>
      intro h
      rw [List.all_cons, Bool.and_eq_true] at h
      obtain ⟨el, hel⟩ := parse_browser_element_ok h.1
      obtain ⟨els, hels⟩ := ih h.2
      simp only [parse_browser_elements, hel, hels]
      exact ⟨_, rfl⟩

/-- A well-shaped browser_data value parses successfully. -/
theorem parse_browser_field_ok {o : Option Json} (h : browserWF o = true) :
    ∃ b, parse_browser_field o = .ok b := by
  cases o with
  | none => exact ⟨none, rfl⟩
  | some bj =>
      simp only [browserWF] at h
      cases ht : jTruthy bj with
      | false =>
          refine ⟨none, ?_⟩
          simp [parse_browser_field, ht]
      | true =>
          rw [if_pos ht] at h
          rcases bj with _ | b | n | q | s | l | bfields <;>
            try exact Bool.noConfusion h
          simp only [Bool.and_eq_true] at h
          obtain ⟨⟨he, hu⟩, hti⟩ := h
          obtain ⟨url, eu⟩ := pyGetOptStr_ok hu
          obtain ⟨title, eti⟩ := pyGetOptStr_ok hti
          cases hli : jLookup bfields "elements" with
          | none =>
              simp only [parse_browser_field, ht, if_true, parse_browser_data,
                hli, eu, eti]
              exact ⟨_, rfl⟩
          | some lj =>
              rw [hli] at he
              rcases lj with _ | b2 | n2 | q2 | s2 | l2 | o2 <;>
                try exact Bool.noConfusion he
              obtain ⟨els, hels⟩ := parse_browser_elements_ok _ he
              simp only [parse_browser_field, ht, if_true, parse_browser_data,
                hli, hels, eu, eti]
              exact ⟨_, rfl⟩

/- ===== Concrete fixtures used by several claims ===== -/

/-- Whether an Except value is a success. -/
def exceptIsOk {ε α : Type} : Except ε α → Bool
  | .ok _ => true
  | .error _ => false

/-- An element that carries only the diff identity key, written
key-colon-value in the spec's test vectors (the identity key is the
ax_element attribute the differ reads). -/
def keyedElement (k : String) : ElementData :=
  { role := "", ax_element := some k }

/-- A minimal snapshot around a given element list. -/
def snapshotOf (es : List ElementData) : ResponseData :=
  { app_name := "", elements := es, stats := zeroStatistics
    processing_time_seconds := "0.000" }

/-- The snapshot that parsing the one-element traversal document
produces: its element has no ax_element attribute. -/
def parsedSnapshot : ResponseData := snapshotOf [{ role := "AXButton" }]

/- ===== Differ lemmas ===== -/

/-- Successful attribute access returns the assigned identity key. -/
theorem getAxElement_ok {e : ElementData} {k : String}
    (h : e.getAxElement = .ok k) : e.ax_element = some k := by
  unfold ElementData.getAxElement at h
  cases he : e.ax_element with
  | some k2 => rw [he] at h; cases h; rfl
  | none => rw [he] at h; cases h

/-- dict assignment preserves the invariant that every entry holds an
element keyed by its own ax_element attribute. -/
theorem dictInsert_keyed {m : ElementDict} {k : String} {v : ElementData}
    (hm : ∀ p ∈ m, p.2.ax_element = some p.1) (hv : v.ax_element = some k) :
    ∀ p ∈ dictInsert m k v, p.2.ax_element = some p.1 := by
  intro p hp
  unfold dictInsert at hp
  split at hp
  · obtain ⟨q, hq, rfl⟩ := List.mem_map.mp hp
    by_cases h : q.1 = k
    · simp only [h, if_pos rfl]
      exact hv
    · simp only [if_neg h]
      exact hm q hq
  · rcases List.mem_append.mp hp with h | h
    · exact hm p h
    · simp only [List.mem_singleton] at h
      subst h
      exact hv

/-- Every entry of a dict built by the differ comprehension holds an
element keyed by its own ax_element attribute. -/
theorem buildElementDict_keyed :
    ∀ (es : List ElementData) (acc m : ElementDict),
      (∀ p ∈ acc, p.2.ax_element = some p.1) →
      buildElementDict acc es = .ok m →
      ∀ p ∈ m, p.2.ax_element = some p.1 := by
  intro es
  induction es with
  | nil =>
      intro acc m hacc h
      simp only [buildElementDict] at h
      cases h
      exact hacc
  | cons e rest ih =>
      intro acc m hacc h
      simp only [buildElementDict] at h
      cases hk : e.getAxElement with
      | error er => rw [hk] at h; cases h
      | ok k =>
          rw [hk] at h
          exact ih (dictInsert acc k e) m
            (dictInsert_keyed hacc (getAxElement_ok hk)) h

/-- A dict contains the key of each of its entries. -/
theorem dictContains_of_mem {m : ElementDict} {p : String × ElementData}
    (hp : p ∈ m) : dictContains m p.1 = true := by
  unfold dictContains
  exact List.any_eq_true.mpr ⟨p, hp, by simp⟩

/- ===== C1 ===== -/

/-- C1 counterexample: the claim quantifies over every pair of snapshots,
but diffing against itself a snapshot the wrapper itself parses (whose
elements never carry the ax_element attribute) raises AttributeError
instead of yielding empty added and removed lists. -/
theorem diff_self_on_parsed_snapshot_raises :
    _generate_traversal_diff parsedSnapshot parsedSnapshot =
      .error .attributeError ∧
    exceptIsOk (_generate_traversal_diff parsedSnapshot parsedSnapshot) = false :=
  ⟨rfl, rfl⟩

/-- C1 (amended): whenever the differ returns a diff at all (that is, every
element of both snapshots carries the ax_element identity key), the added
and removed lists share no identity key, and diffing a snapshot against
itself yields empty added and removed lists.  Both parts hold for arbitrary
element orderings since the snapshots are universally quantified. -/
theorem diff_disjoint_and_self_empty (B A : ResponseData) :
    (∀ d, _generate_traversal_diff B A = .ok d →
       ∀ x ∈ d.added_elements, ∀ y ∈ d.removed_elements,
         x.ax_element ≠ y.ax_element) ∧
    (∀ d, _generate_traversal_diff B B = .ok d →
       d.added_elements = [] ∧ d.removed_elements = []) := by
  constructor
  · intro d hd x hx y hy
    unfold _generate_traversal_diff at hd
    cases hB : buildElementDict [] B.elements with
    | error e => rw [hB] at hd; cases hd
    | ok bd =>
      cases hA : buildElementDict [] A.elements with
      | error e => rw [hB, hA] at hd; cases hd
      | ok ad =>
        rw [hB, hA] at hd
        simp only [Except.ok.injEq] at hd
        subst hd
        simp only [TraversalDiff.added_elements] at hx
        simp only [TraversalDiff.removed_elements] at hy
        obtain ⟨p, hpf, rfl⟩ := List.mem_map.mp hx
        obtain ⟨q, hqf, rfl⟩ := List.mem_map.mp hy
        obtain ⟨hpad, hpc⟩ := List.mem_filter.mp hpf
        obtain ⟨hqbd, hqc⟩ := List.mem_filter.mp hqf
        have hpk : p.2.ax_element = some p.1 :=
          buildElementDict_keyed A.elements [] ad (by simp) hA p hpad
        have hqk : q.2.ax_element = some q.1 :=
          buildElementDict_keyed B.elements [] bd (by simp) hB q hqbd
        intro heq
        rw [hpk, hqk] at heq
        have hk : p.1 = q.1 := Option.some.inj heq
        have hin : dictContains bd p.1 = true := by
          rw [hk]; exact dictContains_of_mem hqbd
        simp only [Bool.not_eq_true'] at hpc
        rw [hpc] at hin
        cases hin
  · intro d hd
    unfold _generate_traversal_diff at hd
    cases hB : buildElementDict [] B.elements with
    | error e => rw [hB] at hd; cases hd
    | ok bd =>
      rw [hB] at hd
      simp only [Except.ok.injEq] at hd
      subst hd
      have hnil : bd.filter (fun p => !dictContains bd p.1) = [] :=
        List.filter_eq_nil_iff.mpr
          (fun p hp => by simp [dictContains_of_mem hp])
      constructor <;> simp [hnil]

/-- C1 witness: a concrete self-diff on a keyed snapshot succeeds and the
amended theorem applies to it. -/
theorem diff_disjoint_and_self_empty_witness :
    ({ added_elements := [], removed_elements := [], modified_elements := []
       stats_before := some zeroStatistics
       stats_after := some zeroStatistics } : TraversalDiff).added_elements = [] ∧
    ({ added_elements := [], removed_elements := [], modified_elements := []
       stats_before := some zeroStatistics
       stats_after := some zeroStatistics } : TraversalDiff).removed_elements = [] :=
  (diff_disjoint_and_self_empty (snapshotOf [keyedElement "k"])
      (snapshotOf [keyedElement "k"])).2
    { added_elements := [], removed_elements := [], modified_elements := []
      stats_before := some zeroStatistics
      stats_after := some zeroStatistics } rfl

/- ===== C2 ===== -/

/-- C2: the differ is claimed never to raise, treating absent identity keys
as non-matching; in fact parsing a well-formed one-element traversal
document yields an element without the ax_element attribute (the dataclass
never declares or assigns it), and diffing that snapshot against itself
raises AttributeError at the first dict comprehension. -/
theorem diff_raises_on_absent_identity_key :
    _parse_response_data
        [("elements", Json.arr [Json.obj [("role", Json.str "AXButton")]])] =
      .ok parsedSnapshot ∧
    parsedSnapshot.elements.all (fun e => e.ax_element = none) = true ∧
    _generate_traversal_diff parsedSnapshot parsedSnapshot =
      .error .attributeError :=
  ⟨rfl, rfl, rfl⟩

/- ===== C3 ===== -/

/-- C3: the two concrete diff vectors from the spec, on elements carrying
identity keys e1 and e2: growing the snapshot reports exactly the new
element as added and nothing removed, shrinking it reports exactly the
dropped element as removed and nothing added. -/
theorem diff_concrete_vectors :
    _generate_traversal_diff (snapshotOf [keyedElement "e1"])
        (snapshotOf [keyedElement "e1", keyedElement "e2"]) =
      .ok { added_elements := [keyedElement "e2"], removed_elements := []
            modified_elements := []
            stats_before := some zeroStatistics
            stats_after := some zeroStatistics } ∧
    _generate_traversal_diff (snapshotOf [keyedElement "e1", keyedElement "e2"])
        (snapshotOf [keyedElement "e2"]) =
      .ok { added_elements := [], removed_elements := [keyedElement "e1"]
            modified_elements := []
            stats_before := some zeroStatistics
            stats_after := some zeroStatistics } :=
  ⟨rfl, rfl⟩

/- ===== C9 ===== -/

/-- C9: for snapshots with empty element lists the differ succeeds with
empty added, removed and modified lists and carries both statistics
records through unchanged. -/
theorem diff_empty_snapshots (B A : ResponseData)
    (hB : B.elements = []) (hA : A.elements = []) :
    _generate_traversal_diff B A =
      .ok { added_elements := [], removed_elements := []
            modified_elements := []
            stats_before := some B.stats
            stats_after := some A.stats } := by
  unfold _generate_traversal_diff
  rw [hB, hA]
  rfl

/-- C9 witness: the theorem applied to two concrete empty snapshots. -/
theorem diff_empty_snapshots_witness :
    _generate_traversal_diff (snapshotOf []) (snapshotOf []) =
      .ok { added_elements := [], removed_elements := []
            modified_elements := []
            stats_before := some (snapshotOf []).stats
            stats_after := some (snapshotOf []).stats } :=
  diff_empty_snapshots (snapshotOf []) (snapshotOf []) rfl rfl

/- ===== C5 ===== -/

/-- C5: the validated configuration forces both traversal flags whenever
show_diff is set, whatever the caller supplied for them, and every other
option field is carried over unchanged. -/
theorem validated_forces_traversals (o : ActionOptions) :
    (o.validated.show_diff = true →
       o.validated.traverse_before = true ∧ o.validated.traverse_after = true) ∧
    o.validated.show_diff = o.show_diff ∧
    o.validated.only_visible_elements = o.only_visible_elements ∧
    o.validated.show_animation = o.show_animation ∧
    o.validated.animation_duration = o.animation_duration ∧
    o.validated.pid_for_traversal = o.pid_for_traversal ∧
    o.validated.delay_after_action = o.delay_after_action := by
  cases h : o.show_diff <;>
    simp [ActionOptions.validated, h]

/-- C5 witness: with show_diff set and both traversal flags cleared by the
caller, validation turns both flags on. -/
theorem validated_forces_traversals_witness :
    ({ traverse_before := false, traverse_after := false
       show_diff := true } : ActionOptions).validated.traverse_before = true ∧
    ({ traverse_before := false, traverse_after := false
       show_diff := true } : ActionOptions).validated.traverse_after = true :=
  (validated_forces_traversals
    { traverse_before := false, traverse_after := false, show_diff := true }).1 rfl

/- ===== C10 ===== -/

/-- C10: at heap level, validated() does not mutate its receiver: the
returned address is fresh (distinct from the receiver's), every
pre-existing object of the heap — the receiver with all its fields
included — is unchanged, and the fresh address holds exactly the validated
copy of the receiver. -/
theorem validated_not_mutating (heap : List ActionOptions) (self : Nat)
    (h : self < heap.length) :
    (validatedHeap heap self).2 ≠ self ∧
    (∀ i, i < heap.length →
      (validatedHeap heap self).1.getD i defaultActionOptions =
        heap.getD i defaultActionOptions) ∧
    (validatedHeap heap self).1.getD (validatedHeap heap self).2
        defaultActionOptions =
      (heap.getD self defaultActionOptions).validated := by
  have hsnd : (validatedHeap heap self).2 = heap.length := rfl
  have hmain : (validatedHeap heap self).1 =
      heap ++ [(heap.getD self defaultActionOptions).validated] := by
    show (heap ++ [_]).set heap.length _ = _
    rw [List.set_append_right _ _ (Nat.le_refl _)]
    simp only [Nat.sub_self, List.set]
    rfl
  refine ⟨?_, ?_, ?_⟩
  · rw [hsnd]; omega
  · intro i hi
    rw [hmain, List.getD_eq_getElem?_getD, List.getElem?_append_left hi]
    exact (List.getD_eq_getElem?_getD heap i _).symm
  · rw [hmain, hsnd, List.getD_eq_getElem?_getD, List.getElem?_concat_length]
    rfl

/-- C10 witness: on a one-object heap the returned address is fresh and
the receiver is unchanged. -/
theorem validated_not_mutating_witness :
    (validatedHeap [defaultActionOptions] 0).2 ≠ 0 ∧
    (validatedHeap [defaultActionOptions] 0).1.getD 0 defaultActionOptions =
      defaultActionOptions :=
  ⟨(validated_not_mutating [defaultActionOptions] 0 (by decide)).1,
   ((validated_not_mutating [defaultActionOptions] 0 (by decide)).2.1 0
      (by decide)).trans rfl⟩

/- ===== C4 ===== -/

/-- Elements of a successful parse, or none when parsing raised. -/
def resElements : Except PyExc ResponseData → Option (List ElementData)
  | .ok rd => some rd.elements
  | .error _ => none

/-- Statistics of a successful parse, or none when parsing raised. -/
def resStats : Except PyExc ResponseData → Option Statistics
  | .ok rd => some rd.stats
  | .error _ => none

/-- C4: on a well-formed traversal document, an empty "elements" array
parses to a snapshot with an empty element list without failing, and a
missing "stats" key parses to the all-zero Statistics record (empty role
counts included) without failing. -/
theorem parse_empty_elements_and_missing_stats (d : List (String × Json))
    (hwf : traversalDocWF d = true) :
    (jLookup d "elements" = some (.arr []) →
       resElements (_parse_response_data d) = some []) ∧
    (jLookup d "stats" = none →
       resStats (_parse_response_data d) = some zeroStatistics) := by
  rw [traversalDocWF] at hwf
  simp only [Bool.and_eq_true] at hwf
  obtain ⟨⟨⟨⟨⟨hstats, helems⟩, hbrow⟩, happ⟩, hpts⟩, hisb⟩ := hwf
  obtain ⟨st, hst⟩ := parse_stats_ok hstats
  obtain ⟨bd, hbd⟩ := parse_browser_field_ok hbrow
  obtain ⟨an, han⟩ := pyGetStrD_ok happ ""
  obtain ⟨pt, hpt⟩ := pyGetStrD_ok hpts "0.000"
  obtain ⟨ib, hib⟩ := pyGetBoolD_ok hisb false
  constructor
  · intro he
    simp only [_parse_response_data, hst, he, parse_elements_field,
      parse_elements, hbd, han, hpt, hib, resElements]
  · intro hs
    obtain ⟨els, hels⟩ := parse_elements_field_ok helems
    rw [hs] at hst
    simp only [Option.getD_none, parse_stats_empty, Except.ok.injEq] at hst
    subst hst
    simp only [_parse_response_data, hs, Option.getD_none, parse_stats_empty,
      hels, hbd, han, hpt, hib, resStats]

/-- The well-formed traversal document holding only an empty elements
array. -/
def emptyElementsDoc : List (String × Json) := [("elements", Json.arr [])]

/-- C4 witness: the theorem applied to the concrete document, which is
well-formed, has an empty elements array and lacks the stats key. -/
theorem parse_empty_elements_and_missing_stats_witness :
    traversalDocWF emptyElementsDoc = true ∧
    resElements (_parse_response_data emptyElementsDoc) = some [] ∧
    resStats (_parse_response_data emptyElementsDoc) = some zeroStatistics :=
  ⟨rfl,
   (parse_empty_elements_and_missing_stats emptyElementsDoc rfl).1 rfl,
   (parse_empty_elements_and_missing_stats emptyElementsDoc rfl).2 rfl⟩

/- ===== C6 ===== -/

/-- An occurrence in a list survives prepending. -/
theorem listContains_append_right (a t n : List Char)
    (h : listContains n t = true) : listContains n (a ++ t) = true := by
  induction a with
  | nil => simpa using h
  | cons c rest ih =>
      show (n.isPrefixOf (c :: (rest ++ t)) || listContains n (rest ++ t)) = true
      rw [ih]
      simp

/-- A lowered-substring occurrence in a string survives prepending. -/
theorem pyContainsLower_append (s t needle : String)
    (h : pyContainsLower t needle = true) :
    pyContainsLower (s ++ t) needle = true := by
  unfold pyContainsLower at h ⊢
  have hd : (s ++ t).toList = s.toList ++ t.toList := String.data_append s t
  rw [hd, List.map_append]
  exact listContains_append_right _ _ _ h

/-- C6 counterexample: a non-zero exit whose stderr contains both
"accessibility" and "not found" surfaces as the accessibility-permission
kind, not as the target-not-found kind the claim requires for stderr
containing "not found". -/
theorem traversal_error_priority_counterexample :
    pyContainsLower "accessibility error: app not found" "not found" = true ∧
    traverseToolFailure "42" 1 "accessibility error: app not found" =
      some (.accessibility
        "TraversalTool failed: accessibility error: app not found") ∧
    (traverseToolFailure "42" 1 "accessibility error: app not found").map
        TraversalFailure.isAppNotFound = some false :=
  ⟨rfl, rfl, rfl⟩

/-- C6 (amended): a non-zero exit raises the message TOOL failed: STDERR
(with the stripped stderr, or the fixed fallback when stderr is empty), and the
traversal caller classifies that lowercased message by substring, checking
"accessibility" before "not found": a stripped stderr containing
"accessibility" surfaces as the accessibility-permission kind; when the
message avoids "accessibility", a stripped stderr containing "not found"
surfaces as the target-not-found kind; when the message contains neither,
the base failure carrying the tool name and the stderr text surfaces. -/
theorem traversal_error_classification (pid stderr : String) (rc : Int)
    (hrc : rc ≠ 0) :
    traverseToolFailure pid rc stderr =
      some (classifyTraversalFailure pid
        (runToolFailureMsg "TraversalTool" stderr)) ∧
    (pyContainsLower (pyStrip stderr) "accessibility" = true →
       traverseToolFailure pid rc stderr =
         some (.accessibility (runToolFailureMsg "TraversalTool" stderr))) ∧
    (pyContainsLower (runToolFailureMsg "TraversalTool" stderr)
        "accessibility" = false →
     pyContainsLower (pyStrip stderr) "not found" = true →
       traverseToolFailure pid rc stderr =
         some (.appNotFound
           ("No application found for identifier " ++ pid))) ∧
    (pyContainsLower (runToolFailureMsg "TraversalTool" stderr)
        "accessibility" = false →
     pyContainsLower (runToolFailureMsg "TraversalTool" stderr)
        "not found" = false →
       traverseToolFailure pid rc stderr =
         some (.base (runToolFailureMsg "TraversalTool" stderr)) ∧
       (stderr ≠ "" →
         runToolFailureMsg "TraversalTool" stderr =
           "TraversalTool" ++ " failed: " ++ pyStrip stderr)) := by
  have hmsg : runToolFailure "TraversalTool" rc stderr =
      some (runToolFailureMsg "TraversalTool" stderr) := by
    unfold runToolFailure
    rw [if_pos hrc]
  refine ⟨?_, ?_, ?_, ?_⟩
  · unfold traverseToolFailure
    rw [hmsg]
    rfl
  · intro h
    by_cases hse : stderr = ""
    · subst hse
      exact Bool.noConfusion h
    · have hc : pyContainsLower (runToolFailureMsg "TraversalTool" stderr)
          "accessibility" = true := by
        unfold runToolFailureMsg
        rw [if_pos hse]
        exact pyContainsLower_append _ _ _ h
      unfold traverseToolFailure
      rw [hmsg]
      have hcl : classifyTraversalFailure pid
          (runToolFailureMsg "TraversalTool" stderr) =
          .accessibility (runToolFailureMsg "TraversalTool" stderr) := by
        unfold classifyTraversalFailure
        rw [hc]
        rfl
      simp only [Option.map, hcl]
  · intro hA h
    by_cases hse : stderr = ""
    · subst hse
      exact Bool.noConfusion h
    · have hnf : pyContainsLower (runToolFailureMsg "TraversalTool" stderr)
          "not found" = true := by
        unfold runToolFailureMsg
        rw [if_pos hse]
        exact pyContainsLower_append _ _ _ h
      unfold traverseToolFailure
      rw [hmsg]
      have hcl : classifyTraversalFailure pid
          (runToolFailureMsg "TraversalTool" stderr) =
          .appNotFound ("No application found for identifier " ++ pid) := by
        unfold classifyTraversalFailure
        rw [hA, hnf]
        rfl
      simp only [Option.map, hcl]
  · intro hA hNF
    constructor
    · unfold traverseToolFailure
      rw [hmsg]
      have hcl : classifyTraversalFailure pid
          (runToolFailureMsg "TraversalTool" stderr) =
          .base (runToolFailureMsg "TraversalTool" stderr) := by
        unfold classifyTraversalFailure
        rw [hA, hNF]
        rfl
      simp only [Option.map, hcl]
    · intro hse
      unfold runToolFailureMsg
      rw [if_pos hse]

/-- C6 witness: a concrete accessibility failure surfaces as the
accessibility-permission kind. -/
theorem traversal_error_classification_witness :
    traverseToolFailure "7" 1 "accessibility permission denied" =
      some (.accessibility
        "TraversalTool failed: accessibility permission denied") :=
  (traversal_error_classification "7" "accessibility permission denied" 1
    (by decide)).2.1 rfl

/- ===== C7 ===== -/

/-- C7: stage independence of perform_action.  First, a failed open stage
returns immediately with only the primary-action error recorded and no
other stage outcome in the result.  Second, once the open stage succeeded
with a usable pid and both traversal flags are on, a before-traversal
failure is recorded in its own field while the after-traversal stage still
runs and records its own outcome, whatever it is.  Third, for an input
action a primary-stage failure is recorded in its own field and the result
is otherwise identical to that of the successful run, so the failure
prevents nothing that the successful run would have done. -/
theorem perform_action_stage_independence :
    (∀ (ident : String) (opts : Option ActionOptions) (fx : Effects)
        (e : String),
       fx.open_app = .error e →
       perform_action (.openApp ident) opts fx =
         .ok { open_result := none, traversal_pid := none
               traversal_before := none, traversal_after := none
               traversal_diff := none, primary_action_error := some e
               traversal_before_error := none
               traversal_after_error := none }) ∧
    (∀ (ident : String) (opts : ActionOptions) (fx : Effects)
        (o : AppOpenerResult) (eb : String),
       fx.open_app = .ok o → o.pid ≠ 0 →
       opts.validated.traverse_before = true →
       opts.validated.traverse_after = true →
       fx.trav_before = .error eb →
       perform_action (.openApp ident) (some opts) fx =
         .ok { open_result := some o, traversal_pid := some o.pid
               traversal_before := none
               traversal_after :=
                 (match fx.trav_after with
                  | .ok rd => some rd
                  | .error _ => none)
               traversal_diff := none, primary_action_error := none
               traversal_before_error := some eb
               traversal_after_error :=
                 (match fx.trav_after with
                  | .error e2 => some e2
                  | .ok _ => none) }) ∧
    (∀ (a : InputActionT) (opts : Option ActionOptions) (fx : Effects)
        (e : String),
       perform_action (.inputAction a) opts
           { fx with input_act := .error e } =
         .ok { emptyActionResult with primary_action_error := some e } ∧
       perform_action (.inputAction a) opts
           { fx with input_act := .ok () } =
         .ok emptyActionResult) := by
  refine ⟨?_, ?_, ?_⟩
  · intro ident opts fx e h
    unfold perform_action
    rw [h]
    rfl
  · intro ident opts fx o eb hopen hpid hTB hTA hBe
    have hp : pidTruthy (some o.pid) = true := by
      simp [pidTruthy, hpid]
    cases hfa : fx.trav_after with
    | ok rd =>
        cases hsd : opts.validated.show_diff <;>
          simp [perform_action, Option.getD_some, hopen, performActionRest,
            hTB, hTA, hBe, hfa, hp, hsd, emptyActionResult]
    | error e2 =>
        cases hsd : opts.validated.show_diff <;>
          simp [perform_action, Option.getD_some, hopen, performActionRest,
            hTB, hTA, hBe, hfa, hp, hsd, emptyActionResult]
  · intro a opts fx e
    constructor <;>
      cases hsd : (opts.getD defaultActionOptions).validated.show_diff <;>
        simp [perform_action, performActionRest, pidTruthy, hsd,
          emptyActionResult]

/-- A concrete effects record whose open stage fails. -/
def effectsOpenFail : Effects :=
  { open_app := .error "boom"
    trav_before := .ok (snapshotOf [])
    input_act := .ok ()
    trav_after := .ok (snapshotOf []) }

/-- C7 witness: the failed open returns immediately with only the
primary-action error set. -/
theorem perform_action_stage_independence_witness :
    perform_action (.openApp "Calculator") none effectsOpenFail =
      .ok { open_result := none, traversal_pid := none
            traversal_before := none, traversal_after := none
            traversal_diff := none, primary_action_error := some "boom"
            traversal_before_error := none
            traversal_after_error := none } :=
  perform_action_stage_independence.1 "Calculator" none effectsOpenFail
    "boom" rfl

/- ===== C8 ===== -/

/-- A fold that never sees its marker keeps the initial default. -/
theorem scanProcessingTime_of_no_marker :
    ∀ (lines : List String) (acc : String),
      lines.all (fun line => !pyContains line "total execution time:") = true →
      lines.foldl
        (fun processing_time line =>
          if pyContains line "total execution time:" then
            pyReplace (pyStrip ((pySplitOnChar line ':').getLastD "")) " seconds" ""
          else processing_time)
        acc = acc := by
  intro lines
  induction lines with
  | nil => intro acc _; rfl
  | cons line rest ih =>
      intro acc h
      rw [List.all_cons, Bool.and_eq_true] at h
      have hline : pyContains line "total execution time:" = false := by
        have := h.1
        simp only [Bool.not_eq_true'] at this
        exact this
      show List.foldl _ (if pyContains line "total execution time:" then _ else acc) rest = acc
      rw [hline]
      exact ih acc h.2

/-- C8: after a successful external-tool call, when no stderr line contains
the fixed marker, the parse still succeeds and the metadata field keeps its
default: "0.000" for the app-open timing string, the empty string for the
output-controller message. -/
theorem metadata_markers_fallback (identifier stdout stderr out2 err2 : String)
    (pid : Int)
    (hpid : pyIntOfString (pyStrip stdout) = some pid)
    (h1 : (pySplitOnChar (pyStrip stderr) '\n').all
        (fun line => !pyContains line "total execution time:") = true)
    (h2 : (pySplitOnChar (pyStrip err2) '\n').all
        (fun line => !pyContains line "Success:") = true) :
    openApplicationParse identifier stdout stderr =
      .ok { pid := pid, app_name := identifier
            processing_time_seconds := "0.000" } ∧
    (outputControllerParse out2 err2).message = "" := by
  constructor
  · unfold openApplicationParse
    rw [hpid]
    have hscan : scanProcessingTime (pySplitOnChar (pyStrip stderr) '\n') =
        "0.000" := scanProcessingTime_of_no_marker _ _ h1
    simp only [hscan]
  · have hfind : (pySplitOnChar (pyStrip err2) '\n').find?
        (fun line => pyContains line "Success:") = none := by
      rw [List.find?_eq_none]
      intro x hx
      have := List.all_eq_true.mp h2 x hx
      simp only [Bool.not_eq_true'] at this
      simp [this]
    have hm : scanSuccessMessage (pySplitOnChar (pyStrip err2) '\n') = "" := by
      unfold scanSuccessMessage
      rw [hfind]
    show (outputControllerParse out2 err2).message = ""
    unfold outputControllerParse
    exact hm

/-- C8 witness: the theorem applied to concrete outputs whose stderr has no
marker line. -/
theorem metadata_markers_fallback_witness :
    openApplicationParse "Calculator" " 123 \n" "log line one\nlog line two" =
      .ok { pid := 123, app_name := "Calculator"
            processing_time_seconds := "0.000" } ∧
    (outputControllerParse "0.5" "volume line").message = "" :=
  metadata_markers_fallback "Calculator" " 123 \n" "log line one\nlog line two"
    "0.5" "volume line" 123 rfl rfl rfl

end MacosUseSDK

